import Mathlib

/-!
Shallow embedding of the job-lifecycle core of the Firecrawl Python SDK
(`apps/python-sdk/firecrawl/firecrawl.py`).

HTTP traffic is abstracted by an oracle giving the server's successive
responses in the order the client issues requests; `time.sleep` calls are
recorded as a list of slept durations; raised exceptions become explicit
outcome constructors.  Loops whose termination depends on server behaviour
take an explicit fuel argument; exhausting the fuel yields a dedicated
`outOfFuel` outcome, and that is the only behaviour the fuel adds.
Documents are opaque to the client, so they are a type parameter `α`.
-/

namespace Firecrawl

/-! ### Transport: the retry loops of `_post_request` / `_get_request` -/

/-- The retry loop shared verbatim by `FirecrawlApp._post_request`,
`_get_request` and `_delete_request` (firecrawl.py:1481, 1510, 1539):
`for attempt in range(retries)`: issue the request (the oracle `resp` gives
the status code of the `i`-th request issued); on a 502, sleep
`backoff_factor * 2 ** attempt` seconds and go round again; on anything else
return the response at once.  When the loop runs out, the last received
response is returned as-is (still a 502).  The result is `none` only in the
degenerate `retries = 0` case, where the Python code reads the unbound local
`response`.  Returns the status code handed back to the caller together with
the list of sleep durations performed. -/
def retryRequest (resp : Nat → Nat) (backoff_factor : ℚ) : Nat → Nat → Option Nat × List ℚ
  | _, 0 => (none, [])
  | i, rem + 1 =>
    let r := resp i
    if r = 502 then
      let rest := retryRequest resp backoff_factor (i + 1) rem
      (some (rest.1.getD r), backoff_factor * 2 ^ i :: rest.2)
    else (some r, [])

/-- `FirecrawlApp._post_request` (firecrawl.py:1458): POST with retries.
The request payload and headers do not influence the retry control flow, so
only the response oracle is modelled. -/
def _post_request (resp : Nat → Nat) (retries : Nat) (backoff_factor : ℚ) :
    Option Nat × List ℚ :=
  retryRequest resp backoff_factor 0 retries

/-- `FirecrawlApp._get_request` (firecrawl.py:1489): GET with retries. -/
def _get_request (resp : Nat → Nat) (retries : Nat) (backoff_factor : ℚ) :
    Option Nat × List ℚ :=
  retryRequest resp backoff_factor 0 retries

/-! ### Status pages and poller responses -/

/-- A parsed status-page JSON object as consumed by the pollers.  The
`status` key is mandatory (the Python indexes `status_data['status']` and
would raise `KeyError` on a page without it, a shape the claims never use);
every other field is `Option`al, `none` meaning the key is absent.  For
`next`, `some s` with `s = ""` models a present but falsy value
(`if not next_url` in the source). -/
structure StatusPage (α : Type) where
  status : String
  data : Option (List α)
  next : Option String
  total : Option Nat
  completed : Option Nat
  creditsUsed : Option Nat
  expiresAt : Option String
  error : Option String

/-- One HTTP response to a status/page GET: the status code and the JSON
body (`none` models a body that `.json()` fails to parse). -/
structure GetResponse (α : Type) where
  status_code : Nat
  body : Option (StatusPage α)

/-- The `CrawlStatusResponse` / `BatchScrapeStatusResponse` value built by
the pollers: scalar fields read with `status_data.get(...)` from the final
page, `data` the accumulated document list. -/
structure CrawlStatusResponse (α : Type) where
  status : Option String
  total : Option Nat
  completed : Option Nat
  credits_used : Option Nat
  expires_at : Option String
  data : List α
  next : Option String
  error : Option String

/-- Build the returned response object from the final `status_data` (whose
`data` entry has been overwritten with the accumulated document list), as in
firecrawl.py:539-558 and 1183-1200, and `CrawlStatusResponse(**status_data)`
at firecrawl.py:1588. -/
def mkStatusResponse {α : Type} (page : StatusPage α) : CrawlStatusResponse α :=
  { status := some page.status
    total := page.total
    completed := page.completed
    credits_used := page.creditsUsed
    expires_at := page.expiresAt
    data := page.data.getD []
    next := page.next
    error := page.error }

/-- Outcome of a pagination loop: the final page carrying the accumulated
documents, or one of the exceptions the loop can let escape. -/
inductive AggOutcome (α : Type) where
  | ok (finalPage : StatusPage α)
  | parseError
  | keyErrorData
  | outOfFuel

/-- The pagination loop of `_monitor_job_status` (firecrawl.py:1578-1587):
`while 'next' in status_data`: stop when the current page's `data` list is
empty; otherwise GET `status_data['next']` — with **no** check of the
response status code and no exception handler — parse it (`parseError`
models the uncaught parse exception), extend the accumulated list with the
new page's `data` (defaulting to `[]`), and continue with the new page.
`keyErrorData` models the uncaught `KeyError` when a page has `next` but no
`data`.  `n` indexes the next response consumed from the oracle. -/
def monitorPaginationLoop {α : Type} (resp : Nat → GetResponse α) :
    Nat → Nat → List α → StatusPage α → AggOutcome α
  | 0, _, _, _ => .outOfFuel
  | fuel + 1, n, acc, page =>
    match page.next with
    | none => .ok { page with data := some acc }
    | some _ =>
      match page.data with
      | none => .keyErrorData
      | some d =>
        if d.isEmpty then .ok { page with data := some acc }
        else
          match (resp n).body with
          | none => .parseError
          | some nextPage =>
            monitorPaginationLoop resp fuel (n + 1) (acc ++ nextPage.data.getD []) nextPage

/-- The pagination loop of `check_crawl_status` (firecrawl.py:518-538) and
`check_batch_scrape_status` (firecrawl.py:1156-1176): identical to the
monitor loop except that a present-but-falsy `next` URL breaks out, and the
continuation fetch is guarded — a non-200 response, or a body that fails to
parse (the re-raised parse exception is caught by `except Exception`),
logs and **breaks**, returning the documents accumulated so far together
with the last successfully parsed page's scalar fields.
Also returns the index of the next unconsumed oracle response. -/
def checkPaginationLoop {α : Type} (resp : Nat → GetResponse α) :
    Nat → Nat → List α → StatusPage α → AggOutcome α × Nat
  | 0, n, _, _ => (.outOfFuel, n)
  | fuel + 1, n, acc, page =>
    match page.next with
    | none => (.ok { page with data := some acc }, n)
    | some nextUrl =>
      match page.data with
      | none => (.keyErrorData, n)
      | some d =>
        if d.isEmpty then (.ok { page with data := some acc }, n)
        else if nextUrl = "" then (.ok { page with data := some acc }, n)
        else
          let r := resp n
          if r.status_code ≠ 200 then (.ok { page with data := some acc }, n + 1)
          else
            match r.body with
            | none => (.ok { page with data := some acc }, n + 1)
            | some nextPage =>
              checkPaginationLoop resp fuel (n + 1) (acc ++ nextPage.data.getD []) nextPage

/-- How `_monitor_job_status` can end. `jobFailed s` models
`Exception(f'Crawl job failed or was stopped. Status: {s}')`; `noData`
models `Exception('Crawl job completed but no data was returned')`;
`httpError c` models the exception raised by `_handle_error` on a non-200
status query. -/
inductive MonitorOutcome (α : Type) where
  | success (r : CrawlStatusResponse α)
  | jobFailed (status : String)
  | noData
  | parseError
  | keyErrorData
  | httpError (code : Nat)
  | outOfFuel

/-- The in-progress status whitelist of firecrawl.py:1591. -/
def inProgressStatuses : List String :=
  ["active", "paused", "pending", "queued", "waiting", "scraping"]

/-- `FirecrawlApp._monitor_job_status` (firecrawl.py:1547-1597):
`while True`: GET the status URL (response `resp n`); on non-200,
`_handle_error` raises; on an unparseable body, raise; if the status is
`completed`, aggregate the page chain and return the assembled
`CrawlStatusResponse` (or raise `noData` when the page has no `data` key);
if the status is in the in-progress whitelist, set
`poll_interval = max(poll_interval, 2)`, sleep that long and loop;
any other status raises `jobFailed` carrying the reported status.
Returns the outcome and the list of sleeps performed. -/
def _monitor_job_status {α : Type} (resp : Nat → GetResponse α) :
    Nat → Nat → Nat → MonitorOutcome α × List Nat
  | 0, _, _ => (.outOfFuel, [])
  | fuel + 1, n, poll_interval =>
    let r := resp n
    if r.status_code = 200 then
      match r.body with
      | none => (.parseError, [])
      | some page =>
        if page.status = "completed" then
          match page.data with
          | some d =>
            match monitorPaginationLoop resp (fuel + 1) (n + 1) d page with
            | .ok finalPage => (.success (mkStatusResponse finalPage), [])
            | .parseError => (.parseError, [])
            | .keyErrorData => (.keyErrorData, [])
            | .outOfFuel => (.outOfFuel, [])
          | none => (.noData, [])
        else if page.status ∈ inProgressStatuses then
          let pi := max poll_interval 2
          let rest := _monitor_job_status resp fuel (n + 1) pi
          (rest.1, pi :: rest.2)
        else (.jobFailed page.status, [])
    else (.httpError r.status_code, [])

/-- How the public status-check calls can end.  `unboundLocal` models the
`UnboundLocalError` raised when the response dictionary is built from the
never-assigned local `data` (firecrawl.py:547 / 1189). -/
inductive CheckOutcome (α : Type) where
  | ok (r : CrawlStatusResponse α)
  | unboundLocal
  | parseError
  | keyErrorData
  | httpError (code : Nat)
  | outOfFuel

/-- `FirecrawlApp.check_crawl_status` (firecrawl.py:506-560): GET the status
URL once (response `resp 0`); on non-200, `_handle_error` raises; on an
unparseable body, raise; when the status is `completed` **and** the page has
a `data` key, walk the page chain; then build the response dictionary.  In
every other 200 case the local `data` was never assigned, and building the
dictionary raises `UnboundLocalError`. -/
def check_crawl_status {α : Type} (resp : Nat → GetResponse α) (fuel : Nat) :
    CheckOutcome α :=
  let r := resp 0
  if r.status_code = 200 then
    match r.body with
    | none => .parseError
    | some page =>
      if page.status = "completed" then
        match page.data with
        | some d =>
          match (checkPaginationLoop resp fuel 1 d page).1 with
          | .ok finalPage => .ok (mkStatusResponse finalPage)
          | .parseError => .parseError
          | .keyErrorData => .keyErrorData
          | .outOfFuel => .outOfFuel
        | none => .unboundLocal
      else .unboundLocal
  else .httpError r.status_code

/-- How the polling loop inside `check_batch_scrape_status` can end. -/
inductive BatchPollStep (α : Type) where
  | reached (page : StatusPage α) (nextIndex : Nat)
  | parseError
  | httpError (code : Nat)
  | outOfFuel

/-- The polling loop of `check_batch_scrape_status` (firecrawl.py:1145-1152):
`while status_data['status'] != 'completed'`: sleep the **raw**
`poll_interval` (no floor), GET the status URL again; on non-200,
`_handle_error` raises; on an unparseable body, the unprotected
`response.json()` raises.  Note that *every* non-`completed` status —
`failed` and `cancelled` included — just sleeps and re-queries. -/
def batchPollLoop {α : Type} (resp : Nat → GetResponse α) :
    Nat → Nat → Nat → StatusPage α → BatchPollStep α × List Nat
  | 0, n, _, page =>
    if page.status = "completed" then (.reached page n, []) else (.outOfFuel, [])
  | fuel + 1, n, poll_interval, page =>
    if page.status = "completed" then (.reached page n, [])
    else
      let r := resp n
      if r.status_code = 200 then
        match r.body with
        | none => (.parseError, [poll_interval])
        | some page2 =>
          let rest := batchPollLoop resp fuel (n + 1) poll_interval page2
          (rest.1, poll_interval :: rest.2)
      else (.httpError r.status_code, [poll_interval])

/-- `FirecrawlApp.check_batch_scrape_status` (firecrawl.py:1122-1202): GET
the status URL (response `resp 0`); poll with `batchPollLoop` until a page
reports `completed`; if that page has a `data` key, walk the page chain with
the guarded pagination loop; finally build the response dictionary — which
raises `UnboundLocalError` when the completed page had no `data` key.
Returns the outcome and the list of sleeps performed. -/
def check_batch_scrape_status {α : Type} (resp : Nat → GetResponse α)
    (fuel : Nat) (poll_interval : Nat) : CheckOutcome α × List Nat :=
  let r := resp 0
  if r.status_code = 200 then
    match r.body with
    | none => (.parseError, [])
    | some page0 =>
      match batchPollLoop resp fuel 1 poll_interval page0 with
      | (.reached page n, sleeps) =>
        match page.data with
        | some d =>
          match (checkPaginationLoop resp fuel n d page).1 with
          | .ok finalPage => (.ok (mkStatusResponse finalPage), sleeps)
          | .parseError => (.parseError, sleeps)
          | .keyErrorData => (.keyErrorData, sleeps)
          | .outOfFuel => (.outOfFuel, sleeps)
        | none => (.unboundLocal, sleeps)
      | (.parseError, sleeps) => (.parseError, sleeps)
      | (.httpError c, sleeps) => (.httpError c, sleeps)
      | (.outOfFuel, sleeps) => (.outOfFuel, sleeps)
  else (.httpError r.status_code, [])

/-! ### Error translation -/

/-- `FirecrawlApp._get_error_message` (firecrawl.py:1624-1648).  The 403
branch assigns its message to the local `message` but — unlike every other
branch — never returns it, so the function falls off the end and returns
`None`: hence the `Option` result. -/
def _get_error_message (status_code : Nat) (action error_message error_details : String) :
    Option String :=
  if status_code = 402 then
    some s!"Payment Required: Failed to {action}. {error_message} - {error_details}"
  else if status_code = 403 then
    none
  else if status_code = 408 then
    some s!"Request Timeout: Failed to {action} as the request timed out. {error_message} - {error_details}"
  else if status_code = 409 then
    some s!"Conflict: Failed to {action} due to a conflict. {error_message} - {error_details}"
  else if status_code = 500 then
    some s!"Internal Server Error: Failed to {action}. {error_message} - {error_details}"
  else
    some s!"Unexpected error during {action}: Status code {status_code}. {error_message} - {error_details}"

/-- The parsed JSON error body read by `_handle_error`: optional `error` and
`details` keys. -/
structure ErrorBody where
  error : Option String
  details : Option String

/-- What `_handle_error` raises. -/
inductive HandledError where
  | raised (message : Option String)
  | parseFailure (status_code : Nat)

/-- `FirecrawlApp._handle_error` (firecrawl.py:1599-1622): parse the error
body (raising a distinct parse-failure error when it is not JSON), read
`error` / `details` with their defaults, and raise an `HTTPError` carrying
the message produced by `_get_error_message` — which is `None` for a 403. -/
def _handle_error (status_code : Nat) (body : Option ErrorBody) (action : String) :
    HandledError :=
  match body with
  | none => .parseFailure status_code
  | some b =>
    .raised (_get_error_message status_code action
      (b.error.getD "No error message provided.")
      (b.details.getD "No additional error details provided."))

/-! ### Event watcher: `CrawlWatcher` / `AsyncCrawlWatcher` -/

/-- The `event_handlers` dictionary of a watcher (firecrawl.py:1718-1722).
Its key set is exactly `{done, error, document}` from construction on —
`add_event_listener` appends to existing keys only — so it is modelled as a
structure with one ordered handler list per kind.  Handlers are opaque,
hence a type parameter `β`. -/
structure EventHandlers (β : Type) where
  done : List β
  error : List β
  document : List β

/-- A watch session: `CrawlWatcher.__init__` (firecrawl.py:1712-1722) with
`data = []`, `status = "scraping"` and empty handler lists. -/
structure CrawlWatcher (α β : Type) where
  id : String
  data : List α
  status : String
  event_handlers : EventHandlers β

/-- The detail dictionary passed to handlers by `dispatch_event`. -/
inductive EventDetail (α : Type) where
  | doneDetail (status : String) (data : List α) (id : String)
  | errorDetail (status : String) (data : List α) (err : String) (id : String)
  | documentDetail (doc : α) (id : String)

/-- `CrawlWatcher.add_event_listener` (firecrawl.py:1745-1754): append the
handler to the list for `event_type` when that key exists in
`event_handlers`; silently do nothing otherwise. -/
def add_event_listener {α β : Type} (w : CrawlWatcher α β) (event_type : String)
    (handler : β) : CrawlWatcher α β :=
  if event_type = "done" then
    { w with event_handlers :=
        { w.event_handlers with done := w.event_handlers.done ++ [handler] } }
  else if event_type = "error" then
    { w with event_handlers :=
        { w.event_handlers with error := w.event_handlers.error ++ [handler] } }
  else if event_type = "document" then
    { w with event_handlers :=
        { w.event_handlers with document := w.event_handlers.document ++ [handler] } }
  else w

/-- `CrawlWatcher.dispatch_event` (firecrawl.py:1756-1766): when
`event_type` is a key of `event_handlers`, call every handler registered for
it, in registration order, with the detail; otherwise call nothing.  Returns
the list of calls made: each handler paired with the detail it received. -/
def dispatch_event {α β : Type} (w : CrawlWatcher α β) (event_type : String)
    (detail : EventDetail α) : List (β × EventDetail α) :=
  if event_type = "done" then w.event_handlers.done.map fun h => (h, detail)
  else if event_type = "error" then w.event_handlers.error.map fun h => (h, detail)
  else if event_type = "document" then w.event_handlers.document.map fun h => (h, detail)
  else []

/-- An inbound WebSocket message, already parsed.  The constructor encodes
the `msg['type']` string; `other t` covers a type string outside
`{done, error, catchup, document}`.  `catchup` carries `msg['data']['status']`
and the optional `msg['data']['data']` document list. -/
inductive WsMessage (α : Type) where
  | done
  | error (err : String)
  | catchup (status : String) (docs : Option (List α))
  | document (doc : α)
  | other (t : String)

/-- One `dispatch_event` call as recorded in a handling trace: the event
kind, the detail, and the handler calls it made. -/
structure Dispatch (α β : Type) where
  event : String
  detail : EventDetail α
  invoked : List (β × EventDetail α)

/-- Record of a `dispatch_event` call on watcher state `w`. -/
def mkDispatch {α β : Type} (w : CrawlWatcher α β) (event : String)
    (detail : EventDetail α) : Dispatch α β :=
  ⟨event, detail, dispatch_event w event detail⟩

/-- `CrawlWatcher._handle_message` (firecrawl.py:1768-1788), identical to
`AsyncCrawlWatcher._handle_message` (firecrawl.py:3185-3205):
`done` sets the status to `completed` then dispatches one `done` event;
`error` sets the status to `failed` then dispatches one `error` event;
`catchup` sets the status to the embedded status, extends the accumulated
documents with the embedded list (defaulting to `[]`), then dispatches one
`document` event per **every** accumulated document; `document` appends the
single document and dispatches one `document` event for it; any other type
does nothing.  Returns the new watcher state and the dispatch calls made,
in order. -/
def _handle_message {α β : Type} (w : CrawlWatcher α β) :
    WsMessage α → CrawlWatcher α β × List (Dispatch α β)
  | .done =>
    let w2 := { w with status := "completed" }
    (w2, [mkDispatch w2 "done" (.doneDetail w2.status w2.data w2.id)])
  | .error e =>
    let w2 := { w with status := "failed" }
    (w2, [mkDispatch w2 "error" (.errorDetail w2.status w2.data e w2.id)])
  | .catchup st docs =>
    let w2 := { w with status := st, data := w.data ++ docs.getD [] }
    (w2, w2.data.map fun doc => mkDispatch w2 "document" (.documentDetail doc w2.id))
  | .document d =>
    let w2 := { w with data := w.data ++ [d] }
    (w2, [mkDispatch w2 "document" (.documentDetail d w2.id)])
  | .other _ => (w, [])

/-- The reader loop `_listen` (firecrawl.py:1734-1743): messages are handled
strictly in arrival order, each message's dispatch completing before the
next message is handled.  Returns the final watcher state and the
concatenated dispatch trace. -/
def handleMessages {α β : Type} (w : CrawlWatcher α β) :
    List (WsMessage α) → CrawlWatcher α β × List (Dispatch α β)
  | [] => (w, [])
  | m :: ms =>
    let step := _handle_message w m
    let rest := handleMessages step.1 ms
    (rest.1, step.2 ++ rest.2)

/-! ### Concrete servers and sessions used by individual claims -/

/-- A status page reporting `failed`, nothing else. -/
def c1page0 : StatusPage Nat :=
  ⟨"failed", none, none, none, none, none, none, none⟩

/-- A completed status page with one document and no continuation. -/
def c1page1 : StatusPage Nat :=
  ⟨"completed", some [7], none, some 1, some 1, some 3, some "t", none⟩

/-- A server that reports `failed` once and then `completed`. -/
def c1resp : Nat → GetResponse Nat :=
  fun n => if n = 0 then ⟨200, some c1page0⟩ else ⟨200, some c1page1⟩

/-- A status page reporting `cancelled`. -/
def c1wpage : StatusPage Nat :=
  ⟨"cancelled", none, none, none, none, none, none, none⟩

/-- A server that always reports `cancelled`. -/
def c1wresp : Nat → GetResponse Nat :=
  fun _ => ⟨200, some c1wpage⟩

/-- First result page: completed, documents `[10, 20]`, continuation `"u"`. -/
def c2p1 : StatusPage Nat :=
  ⟨"completed", some [10, 20], some "u", some 1, some 0, some 2, some "t1", some "e1"⟩

/-- Second result page: documents `[30]`, no continuation, fresh scalars. -/
def c2p2 : StatusPage Nat :=
  ⟨"completed", some [30], none, some 3, some 3, some 9, some "t2", none⟩

/-- A server serving the two-page chain `c2p1`, `c2p2`. -/
def c2resp : Nat → GetResponse Nat :=
  fun n => if n = 0 then ⟨200, some c2p1⟩ else ⟨200, some c2p2⟩

/-- A completed first page with documents `[1, 2]` and continuation `"u"`. -/
def c3page : StatusPage Nat :=
  ⟨"completed", some [1, 2], some "u", some 4, some 2, some 5, some "t", none⟩

/-- A server whose continuation fetch fails: 500 with an unparseable body. -/
def c3resp : Nat → GetResponse Nat :=
  fun n => if n = 0 then ⟨200, some c3page⟩ else ⟨500, none⟩

/-- A status page reporting `scraping`. -/
def c4page0 : StatusPage Nat :=
  ⟨"scraping", none, none, none, none, none, none, none⟩

/-- A completed status page with one document. -/
def c4page1 : StatusPage Nat :=
  ⟨"completed", some [5], none, some 1, some 1, some 1, some "t", none⟩

/-- A server that reports `scraping` once and then `completed`. -/
def c4resp : Nat → GetResponse Nat :=
  fun n => if n = 0 then ⟨200, some c4page0⟩ else ⟨200, some c4page1⟩

/-- A status page reporting `pending`. -/
def c4wpage : StatusPage Nat :=
  ⟨"pending", none, none, none, none, none, none, none⟩

/-- A server that always reports `pending`. -/
def c4wresp : Nat → GetResponse Nat :=
  fun _ => ⟨200, some c4wpage⟩

/-- A transport stub: 502 on the first attempt, then 200. -/
def c5resp : Nat → Nat :=
  fun i => if i = 0 then 502 else 200

/-- A fresh watch session: no documents, no listeners, status `scraping`. -/
def c6w : CrawlWatcher Nat Nat :=
  ⟨"job-1", [], "scraping", ⟨[], [], []⟩⟩

/-- A status page reporting `cancelled` with totals. -/
def c9page0 : StatusPage Nat :=
  ⟨"cancelled", none, none, some 2, some 0, some 1, some "t", none⟩

/-- A completed status page with one document. -/
def c9page1 : StatusPage Nat :=
  ⟨"completed", some [4], none, some 1, some 1, some 2, some "t", none⟩

/-- A server that reports `cancelled` once and then `completed`. -/
def c9resp : Nat → GetResponse Nat :=
  fun n => if n = 0 then ⟨200, some c9page0⟩ else ⟨200, some c9page1⟩

/-- A completed status page with no `data` key. -/
def c9wpage : StatusPage Nat :=
  ⟨"completed", none, none, some 1, some 1, some 2, some "t", none⟩

/-- A server that always serves the completed page without `data`. -/
def c9wresp : Nat → GetResponse Nat :=
  fun _ => ⟨200, some c9wpage⟩

/-- A watch session with one listener per event kind and one document. -/
def c10w : CrawlWatcher Nat Nat :=
  ⟨"job-2", [3], "scraping", ⟨[1], [2], [3]⟩⟩

/-! ### Helper unfolding lemmas -/

theorem retryRequest_zero (resp : Nat → Nat) (bf : ℚ) (i : Nat) :
    retryRequest resp bf i 0 = (none, []) := rfl

theorem retryRequest_succ (resp : Nat → Nat) (bf : ℚ) (i rem : Nat) :
    retryRequest resp bf i (rem + 1) =
      if resp i = 502 then
        (some ((retryRequest resp bf (i + 1) rem).1.getD (resp i)),
          bf * 2 ^ i :: (retryRequest resp bf (i + 1) rem).2)
      else (some (resp i), []) := rfl

theorem checkPaginationLoop_zero {α : Type} (resp : Nat → GetResponse α)
    (n : Nat) (acc : List α) (page : StatusPage α) :
    checkPaginationLoop resp 0 n acc page = (.outOfFuel, n) := rfl

theorem checkPaginationLoop_succ {α : Type} (resp : Nat → GetResponse α)
    (fuel n : Nat) (acc : List α) (page : StatusPage α) :
    checkPaginationLoop resp (fuel + 1) n acc page =
      match page.next with
      | none => (.ok { page with data := some acc }, n)
      | some nextUrl =>
        match page.data with
        | none => (.keyErrorData, n)
        | some d =>
          if d.isEmpty then (.ok { page with data := some acc }, n)
          else if nextUrl = "" then (.ok { page with data := some acc }, n)
          else
            let r := resp n
            if r.status_code ≠ 200 then (.ok { page with data := some acc }, n + 1)
            else
              match r.body with
              | none => (.ok { page with data := some acc }, n + 1)
              | some nextPage =>
                checkPaginationLoop resp fuel (n + 1) (acc ++ nextPage.data.getD []) nextPage :=
  rfl

theorem monitorPaginationLoop_succ {α : Type} (resp : Nat → GetResponse α)
    (fuel n : Nat) (acc : List α) (page : StatusPage α) :
    monitorPaginationLoop resp (fuel + 1) n acc page =
      match page.next with
      | none => .ok { page with data := some acc }
      | some _ =>
        match page.data with
        | none => .keyErrorData
        | some d =>
          if d.isEmpty then .ok { page with data := some acc }
          else
            match (resp n).body with
            | none => .parseError
            | some nextPage =>
              monitorPaginationLoop resp fuel (n + 1) (acc ++ nextPage.data.getD []) nextPage :=
  rfl

theorem batchPollLoop_succ {α : Type} (resp : Nat → GetResponse α)
    (fuel n poll_interval : Nat) (page : StatusPage α) :
    batchPollLoop resp (fuel + 1) n poll_interval page =
      if page.status = "completed" then (.reached page n, [])
      else
        let r := resp n
        if r.status_code = 200 then
          match r.body with
          | none => (.parseError, [poll_interval])
          | some page2 =>
            let rest := batchPollLoop resp fuel (n + 1) poll_interval page2
            (rest.1, poll_interval :: rest.2)
        else (.httpError r.status_code, [poll_interval]) := rfl

theorem batchPollLoop_zero {α : Type} (resp : Nat → GetResponse α)
    (n poll_interval : Nat) (page : StatusPage α) :
    batchPollLoop resp 0 n poll_interval page =
      if page.status = "completed" then (.reached page n, []) else (.outOfFuel, []) := rfl

theorem batchPollLoop_completed {α : Type} (resp : Nat → GetResponse α)
    (fuel n poll_interval : Nat) (page : StatusPage α)
    (hc : page.status = "completed") :
    batchPollLoop resp fuel n poll_interval page = (.reached page n, []) := by
  cases fuel with
  | zero => simp [batchPollLoop_zero, hc]
  | succ fuel => simp [batchPollLoop_succ, hc]

theorem monitor_job_status_succ {α : Type} (resp : Nat → GetResponse α)
    (fuel n poll_interval : Nat) :
    _monitor_job_status resp (fuel + 1) n poll_interval =
      let r := resp n
      if r.status_code = 200 then
        match r.body with
        | none => (.parseError, [])
        | some page =>
          if page.status = "completed" then
            match page.data with
            | some d =>
              match monitorPaginationLoop resp (fuel + 1) (n + 1) d page with
              | .ok finalPage => (.success (mkStatusResponse finalPage), [])
              | .parseError => (.parseError, [])
              | .keyErrorData => (.keyErrorData, [])
              | .outOfFuel => (.outOfFuel, [])
            | none => (.noData, [])
          else if page.status ∈ inProgressStatuses then
            let pi := max poll_interval 2
            let rest := _monitor_job_status resp fuel (n + 1) pi
            (rest.1, pi :: rest.2)
          else (.jobFailed page.status, [])
      else (.httpError r.status_code, []) := rfl

theorem monitor_sleeps_replicate {α : Type} (resp : Nat → GetResponse α) :
    ∀ fuel n pi, ∃ k,
      (_monitor_job_status resp fuel n pi).2 = List.replicate k (max pi 2) := by
  intro fuel
  induction fuel with
  | zero => intro n pi; exact ⟨0, rfl⟩
  | succ fuel ih =>
    intro n pi
    simp only [monitor_job_status_succ]
    split
    · split
      · exact ⟨0, rfl⟩
      · split
        · split
          · split <;> exact ⟨0, rfl⟩
          · exact ⟨0, rfl⟩
        · split
          · obtain ⟨k, hk⟩ := ih (n + 1) (max pi 2)
            have hmax : max (max pi 2) 2 = max pi 2 := by omega
            rw [hmax] at hk
            exact ⟨k + 1, by rw [List.replicate_succ]; exact congrArg _ hk⟩
          · exact ⟨0, rfl⟩
    · exact ⟨0, rfl⟩

theorem batch_sleeps_replicate {α : Type} (resp : Nat → GetResponse α) :
    ∀ fuel n pi page, ∃ k,
      (batchPollLoop resp fuel n pi page).2 = List.replicate k pi := by
  intro fuel
  induction fuel with
  | zero =>
    intro n pi page
    rw [batchPollLoop_zero]
    split <;> exact ⟨0, rfl⟩
  | succ fuel ih =>
    intro n pi page
    simp only [batchPollLoop_succ]
    split
    · exact ⟨0, rfl⟩
    · split
      · split
        · exact ⟨1, rfl⟩
        · rename_i page2 heq2
          obtain ⟨k, hk⟩ := ih (n + 1) pi page2
          exact ⟨k + 1, by rw [List.replicate_succ]; exact congrArg _ hk⟩
      · exact ⟨1, rfl⟩

/-! ### Claims -/

/-- Claim C5 (confirmed): for every request issued through `_post_request`
and `_get_request`, a retry occurs only when the response status is 502, up
to the fixed bound of 3 attempts, the sleep after the k-th 502 being
`backoff_factor * 2 ^ k`; the first non-502 response is returned
immediately without further attempts; and when every attempt returns 502,
the last 502 response is returned as-is rather than raising. -/
theorem transport_retry_policy (resp : Nat → Nat) (bf : ℚ) :
    (∀ k, k < 3 → (∀ j, j < k → resp j = 502) → resp k ≠ 502 →
      _get_request resp 3 bf = (some (resp k), (List.range k).map fun j => bf * 2 ^ j) ∧
      _post_request resp 3 bf = (some (resp k), (List.range k).map fun j => bf * 2 ^ j)) ∧
    ((∀ j, j < 3 → resp j = 502) →
      _get_request resp 3 bf = (some 502, (List.range 3).map fun j => bf * 2 ^ j) ∧
      _post_request resp 3 bf = (some 502, (List.range 3).map fun j => bf * 2 ^ j)) := by
  have unfold3 : retryRequest resp bf 0 3 =
      if resp 0 = 502 then
        (some ((retryRequest resp bf 1 2).1.getD (resp 0)),
          bf * 2 ^ 0 :: (retryRequest resp bf 1 2).2)
      else (some (resp 0), []) := retryRequest_succ resp bf 0 2
  have unfold2 : retryRequest resp bf 1 2 =
      if resp 1 = 502 then
        (some ((retryRequest resp bf 2 1).1.getD (resp 1)),
          bf * 2 ^ 1 :: (retryRequest resp bf 2 1).2)
      else (some (resp 1), []) := retryRequest_succ resp bf 1 1
  have unfold1 : retryRequest resp bf 2 1 =
      if resp 2 = 502 then
        (some ((retryRequest resp bf 3 0).1.getD (resp 2)),
          bf * 2 ^ 2 :: (retryRequest resp bf 3 0).2)
      else (some (resp 2), []) := retryRequest_succ resp bf 2 0
  constructor
  · intro k hk h502 hknot
    interval_cases k
    · constructor <;>
        simp [_get_request, _post_request, unfold3, hknot]
    · have e0 := h502 0 (by omega)
      constructor <;>
        simp [_get_request, _post_request, unfold3, unfold2, e0, hknot, List.range_succ]
    · have e0 := h502 0 (by omega)
      have e1 := h502 1 (by omega)
      constructor <;>
        simp [_get_request, _post_request, unfold3, unfold2, unfold1, e0, e1, hknot,
          List.range_succ]
  · intro h502
    have e0 := h502 0 (by omega)
    have e1 := h502 1 (by omega)
    have e2 := h502 2 (by omega)
    constructor <;>
      simp [_get_request, _post_request, unfold3, unfold2, unfold1, retryRequest_zero,
        e0, e1, e2, List.range_succ]

/-- Claim C5, witness: with a stub that returns 502 once and then 200, the
retry loop returns the 200 after a single sleep of `bf * 2 ^ 0`. -/
theorem transport_retry_policy_witness :
    _get_request c5resp 3 (1/2) = (some 200, [(1/2 : ℚ)]) ∧
    _post_request c5resp 3 (1/2) = (some 200, [(1/2 : ℚ)]) := by
  have h := (transport_retry_policy c5resp (1/2)).1 1 (by omega)
    (fun j hj => by interval_cases j; rfl) (by decide)
  simpa [c5resp, List.range_succ] using h

/-- Claim C7 (code_bug): `_get_error_message` is supposed to return a
formatted message for every status code, but its 403 branch assigns the
message to a local and never returns it, so for a 403 the function returns
`None` and `_handle_error` raises an error whose message is `None`; other
mapped codes return the formatted message with the server-provided error
and details included verbatim. -/
theorem error_message_403_dropped :
    _get_error_message 403 "load page" "Robots disallow" "blocked" = none ∧
    _handle_error 403 (some ⟨some "Robots disallow", some "blocked"⟩) "load page" =
      .raised none ∧
    _get_error_message 500 "load page" "boom" "stack" =
      some "Internal Server Error: Failed to load page. boom - stack" := by
  refine ⟨rfl, rfl, ?_⟩
  rfl

/-- Claim C1 (corrected): for `_monitor_job_status` the classification holds
as stated: a status in `{active, paused, pending, queued, waiting, scraping}`
sleeps `max(poll_interval, 2)` and re-queries; `completed` succeeds when the
page carries `data` (without `data` it raises the no-data error); any other
status raises an error carrying the reported status string.
`check_batch_scrape_status`, however, treats every non-`completed` status —
`failed` and `cancelled` included — as "keep polling": it sleeps and
re-queries instead of raising. -/
theorem terminal_state_classification {α : Type} (resp : Nat → GetResponse α)
    (fuel n pi : Nat) (page : StatusPage α) (d : List α)
    (hr : resp n = ⟨200, some page⟩) :
    (page.status ∈ inProgressStatuses →
      _monitor_job_status resp (fuel + 1) n pi =
        ((_monitor_job_status resp fuel (n + 1) (max pi 2)).1,
          max pi 2 :: (_monitor_job_status resp fuel (n + 1) (max pi 2)).2)) ∧
    (page.status = "completed" → page.data = some d → page.next = none →
      _monitor_job_status resp (fuel + 1) n pi =
        (.success (mkStatusResponse { page with data := some d }), [])) ∧
    (page.status = "completed" → page.data = none →
      _monitor_job_status resp (fuel + 1) n pi = (.noData, [])) ∧
    (page.status ∉ inProgressStatuses → page.status ≠ "completed" →
      _monitor_job_status resp (fuel + 1) n pi = (.jobFailed page.status, [])) ∧
    (page.status ≠ "completed" →
      batchPollLoop resp (fuel + 1) n pi page =
        ((batchPollLoop resp fuel (n + 1) pi page).1,
          pi :: (batchPollLoop resp fuel (n + 1) pi page).2)) := by
  refine ⟨?_, ?_, ?_, ?_, ?_⟩
  · intro hs
    have hne : page.status ≠ "completed" := by
      intro hc
      rw [hc] at hs
      simp [inProgressStatuses] at hs
    rw [monitor_job_status_succ]
    simp [hr, hne, hs]
  · intro hc hd hn
    rw [monitor_job_status_succ]
    simp [hr, hc, hd, hn, monitorPaginationLoop_succ]
  · intro hc hd
    rw [monitor_job_status_succ]
    simp [hr, hc, hd]
  · intro hs hne
    rw [monitor_job_status_succ]
    simp [hr, hne, hs]
  · intro hne
    rw [batchPollLoop_succ]
    simp [hr, hne]

/-- Claim C1, witness: a server reporting `cancelled` makes
`_monitor_job_status` raise the job-failed error carrying `"cancelled"`. -/
theorem terminal_state_classification_witness :
    _monitor_job_status c1wresp 1 0 2 = (.jobFailed "cancelled", []) :=
  (terminal_state_classification c1wresp 0 0 2 c1wpage [] rfl).2.2.2.1
    (by decide) (by decide)

/-- Claim C1, counterexample: `check_batch_scrape_status` observing a 200
status-query response with status `"failed"` does not terminate by raising
an error carrying `"failed"`; it sleeps the poll interval, re-queries, and
returns the next (completed) result. -/
theorem batch_failed_status_requeries :
    check_batch_scrape_status c1resp 5 2 =
      (.ok ⟨some "completed", some 1, some 1, some 3, some "t", [7], none, none⟩,
        [2]) := rfl

/-- Claim C2 (confirmed): for a completed job whose first page has documents
`[a, b]` and a next-page URL and whose second page has documents `[c]` and
no next-page URL, both `check_crawl_status` and `_monitor_job_status` return
documents `[a, b, c]` in page-fetch order, with every scalar field (status,
total, completed, creditsUsed, expiresAt) taken from the last page fetched,
the first page's scalars being discarded. -/
theorem pagination_aggregation {α : Type} (resp : Nat → GetResponse α)
    (a b c : α) (p1 p2 : StatusPage α) (url : String)
    (h1 : p1.status = "completed") (hd1 : p1.data = some [a, b])
    (hn1 : p1.next = some url) (hu : url ≠ "")
    (hd2 : p2.data = some [c]) (hn2 : p2.next = none)
    (hr0 : resp 0 = ⟨200, some p1⟩) (hr1 : resp 1 = ⟨200, some p2⟩) :
    check_crawl_status resp 2 =
      .ok ⟨some p2.status, p2.total, p2.completed, p2.creditsUsed, p2.expiresAt,
        [a, b, c], none, p2.error⟩ ∧
    _monitor_job_status resp 2 0 0 =
      (.success ⟨some p2.status, p2.total, p2.completed, p2.creditsUsed, p2.expiresAt,
        [a, b, c], none, p2.error⟩, []) := by
  have hm1 : monitorPaginationLoop resp 1 2 [a, b, c] p2 =
      .ok { p2 with data := some [a, b, c], next := none } := by
    have h := monitorPaginationLoop_succ resp 0 2 [a, b, c] p2
    rw [hn2] at h
    simpa using h
  have hm2 : monitorPaginationLoop resp 2 1 [a, b] p1 =
      .ok { p2 with data := some [a, b, c], next := none } := by
    have h := monitorPaginationLoop_succ resp 1 1 [a, b] p1
    rw [hn1, hd1] at h
    simp [hr1, hd2] at h
    rw [h]
    exact hm1
  have hc1 : (checkPaginationLoop resp 1 2 [a, b, c] p2).1 =
      .ok { p2 with data := some [a, b, c], next := none } := by
    have h := checkPaginationLoop_succ resp 0 2 [a, b, c] p2
    rw [hn2] at h
    simpa using congrArg Prod.fst h
  have hc2 : (checkPaginationLoop resp 2 1 [a, b] p1).1 =
      .ok { p2 with data := some [a, b, c], next := none } := by
    have h := checkPaginationLoop_succ resp 1 1 [a, b] p1
    rw [hn1, hd1] at h
    simp [hr1, hd2, hu] at h
    rw [h]
    exact hc1
  constructor
  · simp [check_crawl_status, hr0, h1, hd1, hc2, mkStatusResponse, hn2, hd2]
  · show _monitor_job_status resp (1 + 1) 0 0 = _
    rw [monitor_job_status_succ]
    simp [hr0, h1, hd1, hm2, mkStatusResponse, hn2, hd2]

/-- Claim C2, witness: on the concrete two-page chain `c2p1`, `c2p2` the
aggregated result is `[10, 20, 30]` with the second page's scalars. -/
theorem pagination_aggregation_witness :
    check_crawl_status c2resp 2 =
      .ok ⟨some "completed", some 3, some 3, some 9, some "t2", [10, 20, 30],
        none, none⟩ ∧
    _monitor_job_status c2resp 2 0 0 =
      (.success ⟨some "completed", some 3, some 3, some 9, some "t2", [10, 20, 30],
        none, none⟩, []) := by
  have h := pagination_aggregation c2resp 10 20 30 c2p1 c2p2 "u"
    rfl rfl rfl (by decide) rfl rfl rfl rfl
  simpa [c2p2] using h

/-- Claim C3 (corrected): when a continuation-page fetch returns non-200,
`check_crawl_status` and `check_batch_scrape_status` stop pagination and
return the documents accumulated so far without raising.
`_monitor_job_status`, however, performs no status check on continuation
fetches: it parses any response regardless of its status code — raising on
an unparseable body, and otherwise continuing aggregation with that body's
contents. -/
theorem pagination_stops_on_failed_fetch {α : Type} (resp : Nat → GetResponse α)
    (fuel n pi code : Nat) (p q : StatusPage α) (x : α) (xs acc : List α)
    (url : String)
    (h1 : p.status = "completed") (hd : p.data = some (x :: xs))
    (hn : p.next = some url) (hu : url ≠ "") :
    ((resp 1).status_code ≠ 200 → resp 0 = ⟨200, some p⟩ →
      check_crawl_status resp (fuel + 1) =
        .ok (mkStatusResponse { p with data := some (x :: xs) })) ∧
    ((resp 1).status_code ≠ 200 → resp 0 = ⟨200, some p⟩ →
      check_batch_scrape_status resp (fuel + 1) pi =
        (.ok (mkStatusResponse { p with data := some (x :: xs) }), [])) ∧
    (resp n = ⟨code, none⟩ →
      monitorPaginationLoop resp (fuel + 1) n acc p = .parseError) ∧
    (resp n = ⟨code, some q⟩ →
      monitorPaginationLoop resp (fuel + 1) n acc p =
        monitorPaginationLoop resp fuel (n + 1) (acc ++ q.data.getD []) q) := by
  refine ⟨?_, ?_, ?_, ?_⟩
  · intro hb hr0
    have h := checkPaginationLoop_succ resp fuel 1 (x :: xs) p
    rw [hn, hd] at h
    simp [hu, hb] at h
    simp [check_crawl_status, hr0, h1, hd, hn, h]
  · intro hb hr0
    have h := checkPaginationLoop_succ resp fuel 1 (x :: xs) p
    rw [hn, hd] at h
    simp [hu, hb] at h
    simp [check_batch_scrape_status, hr0, h1, hd, hn, h,
      batchPollLoop_completed resp (fuel + 1) 1 pi p h1]
  · intro hrn
    have h := monitorPaginationLoop_succ resp fuel n acc p
    rw [hn, hd, hrn] at h
    simpa using h
  · intro hrn
    have h := monitorPaginationLoop_succ resp fuel n acc p
    rw [hn, hd, hrn] at h
    simpa using h

/-- Claim C3, witness: on the concrete server `c3resp`, whose continuation
fetch fails with a 500, `check_crawl_status` returns the first page's two
documents and scalars without raising. -/
theorem pagination_stops_on_failed_fetch_witness :
    check_crawl_status c3resp 2 =
      .ok ⟨some "completed", some 4, some 2, some 5, some "t", [1, 2],
        some "u", none⟩ := by
  have h := (pagination_stops_on_failed_fetch c3resp 1 0 0 0 c3page c3page 1 [2] []
    "u" rfl rfl rfl (by decide)).1 (by decide) rfl
  simpa [c3page, mkStatusResponse] using h

/-- Claim C3, counterexample: on the same failing continuation fetch,
`_monitor_job_status` does not return the accumulated documents `[1, 2]`;
it tries to parse the 500 response body and raises a parse error. -/
theorem monitor_pagination_raises :
    _monitor_job_status c3resp 3 0 2 = (.parseError, []) := rfl

/-- Claim C4 (corrected): `_monitor_job_status` enforces the 2-second floor
— every sleep it performs equals `max(poll_interval, 2)` — but
`check_batch_scrape_status` does not: its polling loop sleeps exactly the
raw caller-supplied interval (0 included) between consecutive queries. -/
theorem poll_interval_floor {α : Type} (resp : Nat → GetResponse α)
    (fuel n pi : Nat) (page page2 : StatusPage α) :
    (∃ k, (_monitor_job_status resp fuel n pi).2 = List.replicate k (max pi 2)) ∧
    (∃ k, (batchPollLoop resp fuel n pi page).2 = List.replicate k pi) ∧
    (resp n = ⟨200, some page⟩ → page.status ∈ inProgressStatuses →
      (_monitor_job_status resp (fuel + 1) n pi).2 =
        max pi 2 :: (_monitor_job_status resp fuel (n + 1) (max pi 2)).2) ∧
    (page.status ≠ "completed" → resp n = ⟨200, some page2⟩ →
      (batchPollLoop resp (fuel + 1) n pi page).2 =
        pi :: (batchPollLoop resp fuel (n + 1) pi page2).2) := by
  refine ⟨monitor_sleeps_replicate resp fuel n pi,
    batch_sleeps_replicate resp fuel n pi page, ?_, ?_⟩
  · intro hr hs
    have hne : page.status ≠ "completed" := by
      intro hc
      rw [hc] at hs
      simp [inProgressStatuses] at hs
    rw [monitor_job_status_succ]
    simp [hr, hne, hs]
  · intro hne hr
    rw [batchPollLoop_succ]
    simp [hr, hne]

/-- Claim C4, witness: with a server always reporting `pending` and a
caller-supplied interval of 0, `_monitor_job_status` still sleeps 2
seconds. -/
theorem poll_interval_floor_witness :
    (_monitor_job_status c4wresp 1 0 0).2 = [2] := by
  have h := (poll_interval_floor c4wresp 0 0 0 c4wpage c4wpage).2.2.1 rfl (by decide)
  simpa using h

/-- Claim C4, counterexample: with `poll_interval = 0`,
`check_batch_scrape_status` observing `scraping` then `completed` sleeps 0
seconds between the two queries — no 2-second floor on the batch path. -/
theorem batch_poll_no_floor :
    check_batch_scrape_status c4resp 5 0 =
      (.ok ⟨some "completed", some 1, some 1, some 1, some "t", [5], none, none⟩,
        [0]) := rfl

/-- Claim C9 (corrected): in `check_crawl_status`, every 200 response whose
status is not `completed`, or that lacks a `data` field, makes the response
construction read the never-assigned local `data`, raising an unhandled
`UnboundLocalError` at the public interface.  In `check_batch_scrape_status`
a non-`completed` status instead makes the loop sleep and re-query, so there
only a `completed` response lacking `data` reaches the response construction
and raises the `UnboundLocalError`. -/
theorem unbound_data_variable {α : Type} (resp : Nat → GetResponse α)
    (fuel pi : Nat) (page : StatusPage α)
    (hr : resp 0 = ⟨200, some page⟩) :
    (page.status ≠ "completed" → check_crawl_status resp fuel = .unboundLocal) ∧
    (page.data = none → check_crawl_status resp fuel = .unboundLocal) ∧
    (page.status = "completed" → page.data = none →
      check_batch_scrape_status resp fuel pi = (.unboundLocal, [])) := by
  refine ⟨?_, ?_, ?_⟩
  · intro hne
    simp [check_crawl_status, hr, hne]
  · intro hd
    by_cases hc : page.status = "completed"
    · simp [check_crawl_status, hr, hc, hd]
    · simp [check_crawl_status, hr, hc]
  · intro hc hd
    simp [check_batch_scrape_status, hr, hd,
      batchPollLoop_completed resp fuel 1 pi page hc]

/-- Claim C9, witness: a server whose page is `completed` but has no `data`
key makes both public status checks raise the unbound-local error. -/
theorem unbound_data_variable_witness :
    check_crawl_status c9wresp 3 = .unboundLocal ∧
    check_batch_scrape_status c9wresp 3 0 = (.unboundLocal, []) := by
  have h := unbound_data_variable c9wresp 3 0 c9wpage rfl
  exact ⟨h.2.1 rfl, h.2.2 rfl rfl⟩

/-- Claim C9, counterexample: `check_batch_scrape_status` receiving a 200
response with the non-`completed` status `"cancelled"` does not raise an
unbound-local error; it polls again and returns a status response. -/
theorem batch_nonterminal_returns_response :
    check_batch_scrape_status c9resp 5 1 =
      (.ok ⟨some "completed", some 1, some 1, some 2, some "t", [4], none, none⟩,
        [1]) := rfl

/-- Claim C6 (confirmed): on a `catchup` message the session status becomes
the message's embedded status, the embedded document list is appended to the
accumulated documents, and one `document` event is dispatched per **every**
accumulated document so far; in particular a fresh session (empty
accumulated list) receiving a catchup with 3 documents dispatches exactly 3
`document` events, each with the correct document. -/
theorem catchup_replay {α β : Type} (w : CrawlWatcher α β) (st : String)
    (docs : Option (List α)) :
    _handle_message w (.catchup st docs) =
      ({ w with status := st, data := w.data ++ docs.getD [] },
        (w.data ++ docs.getD []).map fun doc =>
          mkDispatch { w with status := st, data := w.data ++ docs.getD [] }
            "document" (.documentDetail doc w.id)) ∧
    (w.data = [] → ∀ d1 d2 d3 : α,
      ((_handle_message w (.catchup st (some [d1, d2, d3]))).2).map Dispatch.detail =
        [.documentDetail d1 w.id, .documentDetail d2 w.id, .documentDetail d3 w.id]) := by
  constructor
  · simp [_handle_message]
  · intro hdata d1 d2 d3
    simp [_handle_message, mkDispatch, hdata]

/-- Claim C6, witness: a fresh session receiving a catchup carrying the
documents `[11, 12, 13]` dispatches exactly the 3 corresponding `document`
events, in order. -/
theorem catchup_replay_witness :
    ((_handle_message c6w (.catchup "scraping" (some [11, 12, 13]))).2).map Dispatch.detail =
      [.documentDetail 11 "job-1", .documentDetail 12 "job-1",
        .documentDetail 13 "job-1"] := by
  have h := (catchup_replay c6w "scraping" (some [11, 12, 13])).2 rfl 11 12 13
  simpa [c6w] using h

/-- Claim C8 (confirmed): handling the inbound sequence
`[document a, document b, done]` dispatches `document(a)`, `document(b)`,
`done` in exactly that order, each dispatch invoking that kind's handlers in
registration order, and the session status is still the initial one after
the two document messages, becoming `completed` with the `done` dispatch. -/
theorem event_ordering {α β : Type} (w : CrawlWatcher α β) (a b : α) :
    handleMessages w [.document a, .document b, .done] =
      (⟨w.id, w.data ++ [a, b], "completed", w.event_handlers⟩,
        [⟨"document", .documentDetail a w.id,
            w.event_handlers.document.map fun h => (h, .documentDetail a w.id)⟩,
         ⟨"document", .documentDetail b w.id,
            w.event_handlers.document.map fun h => (h, .documentDetail b w.id)⟩,
         ⟨"done", .doneDetail "completed" (w.data ++ [a, b]) w.id,
            w.event_handlers.done.map fun h =>
              (h, .doneDetail "completed" (w.data ++ [a, b]) w.id)⟩]) ∧
    (handleMessages w [.document a, .document b]).1.status = w.status := by
  constructor
  · simp [handleMessages, _handle_message, mkDispatch, dispatch_event]
  · simp [handleMessages, _handle_message]

/-- Claim C10 (confirmed): a message whose type `t` is outside
`{done, error, catchup, document}` leaves the session state unchanged and
dispatches nothing; and for **every** kind `u` outside
`{done, error, document}` — `"catchup"` included, since it is a message
type but not a listener kind — `add_event_listener` leaves the handler
registry unchanged and `dispatch_event` invokes no handlers. -/
theorem unknown_event_kind_noop {α β : Type} (w : CrawlWatcher α β) (t u : String)
    (h : β) (d : EventDetail α)
    (hmsg : t ∉ ["done", "error", "catchup", "document"])
    (hkind : u ∉ ["done", "error", "document"]) :
    _handle_message w (.other t) = (w, []) ∧
    add_event_listener w u h = w ∧
    dispatch_event w u d = [] := by
  simp only [List.mem_cons, List.mem_singleton, not_or] at hkind
  obtain ⟨h1, h2, h3⟩ := hkind
  refine ⟨rfl, ?_, ?_⟩
  · simp [add_event_listener, h1, h2, h3]
  · simp [dispatch_event, h1, h2, h3]

/-- Claim C10, witness: on a session with one listener per kind, a message
of type `"progress"` is a no-op, and both a listener registration and a
dispatch for the kind `"catchup"` — which is outside the listener-kind set
`{done, error, document}` — are silent no-ops. -/
theorem unknown_event_kind_noop_witness :
    _handle_message c10w (.other "progress") = (c10w, []) ∧
    add_event_listener c10w "catchup" 9 = c10w ∧
    dispatch_event c10w "catchup" (.documentDetail 3 "job-2") = [] :=
  unknown_event_kind_noop c10w "progress" "catchup" 9 (.documentDetail 3 "job-2")
    (by decide) (by decide)

end Firecrawl
